import Mathlib

/-!
Verification of the FaceFrame frame-matching core (`DatabaseStorage.searchFrames`)
against its natural-language specification.

The scoring variant of `searchFrames` fetches all rows with `is_active = true`,
computes a per-frame match score from the AI-derived search criteria, sorts by
score descending with JavaScript's stable `Array.prototype.sort`, truncates with
`Array.prototype.slice(0, limit)` and strips the ephemeral score.  JavaScript
numbers are modelled as exact rationals; `Array.prototype.sort` with a consistent
comparator produces the unique stable sorted order, which is also what
`List.insertionSort` produces, so the latter is a faithful model of the former.
-/

namespace FaceFrame

open scoped List

/-- A row of the `frames` table (shared/schema.ts).  Nullable columns are
`Option`; the `price` decimal travels as a string in the drizzle row type; the
opaque `features` jsonb column is not read by any code under verification and is
omitted. -/
structure Frame where
  id : String
  name : String
  brand : String
  style : String
  color : String
  size : String
  price : String
  stockStatus : String
  stockCount : Option Int
  imageUrl : String
  descr : Option String
  suitableFaceShapes : Option (List String)
  isActive : Option Bool
  deriving DecidableEq, Repr

/-- The `frameSearchSchema` zod object (shared/schema.ts): all four fields are
required, the three lists may have any length. -/
structure FrameSearchCriteria where
  faceShape : String
  recommendedSizes : List String
  recommendedColors : List String
  recommendedStyles : List String
  deriving DecidableEq, Repr

/-- Per-frame match score, mirroring the score accumulation of the in-memory
`searchFrames` variant.  The face-shape branch requires `criteria.faceShape`
to be non-empty because the source guards with JavaScript truthiness
(`criteria.faceShape && frame.suitableFaceShapes?.includes(...)`), under which
the empty string is falsy; a null `suitableFaceShapes` never matches
(optional chaining yields `undefined`).  The stock-count branch requires a
non-null, positive count (`frame.stockCount && frame.stockCount > 0`). -/
def frameScore (criteria : FrameSearchCriteria) (frame : Frame) : ℚ :=
  (if criteria.faceShape ≠ "" ∧ criteria.faceShape ∈ frame.suitableFaceShapes.getD [] then 30 else 0)
  + (if frame.size ∈ criteria.recommendedSizes then 25 else 0)
  + (if frame.color ∈ criteria.recommendedColors then 20 else 0)
  + (if frame.style ∈ criteria.recommendedStyles then 20 else 0)
  + (if frame.stockStatus = "in_stock" then 10
     else if frame.stockStatus = "low_stock" then 5 else 0)
  + (match frame.stockCount with
     | some c => if 0 < c then min ((c : ℚ) / 10) 5 else 0
     | none => 0)

/-- The stock-only part of the score (status bonus plus capped depth bonus);
what remains of `frameScore` when no attribute factor matches. -/
def stockScore (frame : Frame) : ℚ :=
  (if frame.stockStatus = "in_stock" then 10
     else if frame.stockStatus = "low_stock" then 5 else 0)
  + (match frame.stockCount with
     | some c => if 0 < c then min ((c : ℚ) / 10) 5 else 0
     | none => 0)

/-- The rows the scoring variant starts from: `where(eq(frames.isActive, true))`.
A SQL null `is_active` does not satisfy `= true`. -/
def eligibleFrames (catalog : List Frame) : List Frame :=
  catalog.filter (fun f => f.isActive = some true)

/-- `allFrames.map(frame => ({ ...frame, matchScore: score }))`, with the scored
candidate modelled as a pair. -/
def scoredFrames (criteria : FrameSearchCriteria) (catalog : List Frame) :
    List (Frame × ℚ) :=
  (eligibleFrames catalog).map (fun f => (f, frameScore criteria f))

/-- The order produced by the comparator `(a, b) => b.matchScore - a.matchScore`:
`a` may stay before `b` exactly when the comparator is non-positive. -/
def scoreGE (a b : Frame × ℚ) : Prop := b.2 ≤ a.2

instance : DecidableRel scoreGE :=
  fun a b => inferInstanceAs (Decidable (b.2 ≤ a.2))

instance : IsTrans (Frame × ℚ) scoreGE :=
  ⟨fun _ _ _ h1 h2 => le_trans h2 h1⟩

instance : IsTotal (Frame × ℚ) scoreGE :=
  ⟨fun a b => le_total b.2 a.2⟩

/-- `scoredFrames.sort((a, b) => b.matchScore - a.matchScore)`: ECMAScript
`Array.prototype.sort` is stable, and with this consistent comparator its output
is the unique stable order sorted by score descending — which is exactly what
insertion sort computes. -/
def rankedFrames (criteria : FrameSearchCriteria) (catalog : List Frame) :
    List (Frame × ℚ) :=
  List.insertionSort scoreGE (scoredFrames criteria catalog)

/-- `Array.prototype.slice(0, e)`: a non-negative end index keeps the first `e`
elements (clamped to the length); a negative end index counts from the end,
keeping `max(length + e, 0)` elements. -/
def jsSlice {α : Type} (l : List α) (e : Int) : List α :=
  if e < 0 then l.take (l.length - (-e).toNat) else l.take e.toNat

/-- The in-memory `DatabaseStorage.searchFrames` (fetch-all-then-score variant):
filter active, score, stable-sort by score descending, `slice(0, limit)` with
`limit` defaulting to 5, and strip the ephemeral `matchScore`. -/
def searchFrames (criteria : FrameSearchCriteria) (catalog : List Frame)
    (limit : Int := 5) : List Frame :=
  (jsSlice (rankedFrames criteria catalog) limit).map Prod.fst

/-- Claim C1's wording of the scoring table: +30 on bare membership of
`attributes.faceShape` in the frame's `suitableFaceShapes` (no further
condition), the stock-status bonuses as separate mutually-exclusive summands,
and a depth bonus awarded exactly when the (null-defaulted) count is
positive. -/
def claimedScore (criteria : FrameSearchCriteria) (frame : Frame) : ℚ :=
  (if criteria.faceShape ∈ frame.suitableFaceShapes.getD [] then 30 else 0)
  + (if frame.size ∈ criteria.recommendedSizes then 25 else 0)
  + (if frame.color ∈ criteria.recommendedColors then 20 else 0)
  + (if frame.style ∈ criteria.recommendedStyles then 20 else 0)
  + (if frame.stockStatus = "in_stock" then 10 else 0)
  + (if frame.stockStatus = "low_stock" then 5 else 0)
  + (if 0 < frame.stockCount.getD 0 then min ((frame.stockCount.getD 0 : ℚ) / 10) 5 else 0)

/-- Claim C1 amended only where the counterexample forces it: the face-shape
contribution additionally requires `attributes.faceShape` to be non-empty. -/
def amendedScore (criteria : FrameSearchCriteria) (frame : Frame) : ℚ :=
  (if criteria.faceShape ≠ "" ∧ criteria.faceShape ∈ frame.suitableFaceShapes.getD [] then 30 else 0)
  + (if frame.size ∈ criteria.recommendedSizes then 25 else 0)
  + (if frame.color ∈ criteria.recommendedColors then 20 else 0)
  + (if frame.style ∈ criteria.recommendedStyles then 20 else 0)
  + (if frame.stockStatus = "in_stock" then 10 else 0)
  + (if frame.stockStatus = "low_stock" then 5 else 0)
  + (if 0 < frame.stockCount.getD 0 then min ((frame.stockCount.getD 0 : ℚ) / 10) 5 else 0)

/-- The WHERE predicate assembled by the historical query-push `searchFrames`
variant (lines 230-270 of the storage module).  The face-shape condition is the
SQL array-contains predicate `suitable_face_shapes @> ARRAY[faceShape]`, pushed
only when `criteria.faceShape` is truthy; a SQL NULL column satisfies no
condition.  The variant also reads `criteria.recommendedSize` (singular), a
property absent from `FrameSearchCriteria`, so that guard is always falsy and no
size condition is ever pushed. -/
def queryKeeps (criteria : FrameSearchCriteria) (f : Frame) : Prop :=
  f.isActive = some true
  ∧ (criteria.faceShape ≠ "" → criteria.faceShape ∈ f.suitableFaceShapes.getD [])
  ∧ (criteria.recommendedColors ≠ [] → f.color ∈ criteria.recommendedColors)
  ∧ (criteria.recommendedStyles ≠ [] → f.style ∈ criteria.recommendedStyles)

instance (criteria : FrameSearchCriteria) : DecidablePred (queryKeeps criteria) := by
  unfold queryKeeps
  exact fun f => inferInstance

/-- Sort key for `orderBy(desc(frames.stockCount))`: PostgreSQL `DESC` places
NULLs first, so a null count sorts as top. -/
def stockKey (f : Frame) : WithTop Int :=
  match f.stockCount with
  | none => ⊤
  | some c => (c : WithTop Int)

/-- `a` may precede `b` under `ORDER BY stock_count DESC`. -/
def stockGE (a b : Frame) : Prop := stockKey b ≤ stockKey a

instance : DecidableRel stockGE :=
  fun a b => inferInstanceAs (Decidable (stockKey b ≤ stockKey a))

/-- The historical query-push `DatabaseStorage.searchFrames` variant: frames
satisfying every pushed condition, ordered by stock count descending, truncated
by the SQL LIMIT.  The relative order of rows with equal stock count is not
fixed by the SQL; the model uses the stable order (no theorem below depends on
how such ties are broken). -/
def searchFramesPush (criteria : FrameSearchCriteria) (catalog : List Frame)
    (limit : Nat := 5) : List Frame :=
  (List.insertionSort stockGE (catalog.filter (fun f => queryKeeps criteria f))).take limit

/-! ### Concrete inputs used by witnesses and counterexamples -/

/-- Product A of the spec's concrete scenario (§8.7). -/
def frameA : Frame :=
  { id := "A", name := "Classic Aviator", brand := "Ray-Ban", style := "Aviator",
    color := "Gold", size := "Medium", price := "189.99", stockStatus := "in_stock",
    stockCount := some 25, imageUrl := "a.png", descr := none,
    suitableFaceShapes := some ["oval"], isActive := some true }

/-- Product B of the spec's concrete scenario (§8.7). -/
def frameB : Frame :=
  { id := "B", name := "Wayfarer Black", brand := "Ray-Ban", style := "Rectangle",
    color := "Black", size := "Large", price := "159.99", stockStatus := "in_stock",
    stockCount := some 18, imageUrl := "b.png", descr := none,
    suitableFaceShapes := some ["round"], isActive := some true }

/-- Product C of the spec's concrete scenario (§8.7). -/
def frameC : Frame :=
  { id := "C", name := "Round Vintage", brand := "Oliver Peoples", style := "Round",
    color := "Tortoise", size := "Small", price := "299.99", stockStatus := "in_stock",
    stockCount := some 12, imageUrl := "c.png", descr := none,
    suitableFaceShapes := some ["oval"], isActive := some true }

/-- The attribute record of the spec's concrete scenario (§8.7). -/
def crit6 : FrameSearchCriteria :=
  { faceShape := "oval", recommendedSizes := ["Medium", "Small"],
    recommendedColors := ["Gold", "Tortoise"], recommendedStyles := ["Aviator", "Round"] }

/-- The catalog of the spec's concrete scenario (§8.7). -/
def cat6 : List Frame := [frameA, frameB, frameC]

/-- Criteria whose `faceShape` is the empty string (passes the zod schema,
falsy in JavaScript). -/
def critEmpty : FrameSearchCriteria :=
  { faceShape := "", recommendedSizes := [], recommendedColors := [],
    recommendedStyles := [] }

/-- A frame whose `suitableFaceShapes` contains the empty string. -/
def frameEmptyShape : Frame :=
  { id := "E", name := "Empty", brand := "X", style := "Round",
    color := "Red", size := "Tiny", price := "1", stockStatus := "out_of_stock",
    stockCount := some 0, imageUrl := "e.png", descr := none,
    suitableFaceShapes := some [""], isActive := some true }

/-- An inactive frame whose attributes perfectly match `crit6`. -/
def frameInactive : Frame :=
  { id := "I", name := "Retired Aviator", brand := "Ray-Ban", style := "Aviator",
    color := "Gold", size := "Medium", price := "10", stockStatus := "in_stock",
    stockCount := some 99, imageUrl := "i.png", descr := none,
    suitableFaceShapes := some ["oval"], isActive := some false }

/-- A stock-only frame; `frameE` differs from it only in `id` and `name`, so the
two have equal match scores under every criteria. -/
def frameD : Frame :=
  { id := "D", name := "Twin One", brand := "Z", style := "Oval",
    color := "Green", size := "Medium", price := "5", stockStatus := "in_stock",
    stockCount := none, imageUrl := "d.png", descr := none,
    suitableFaceShapes := none, isActive := some true }

/-- Identical to `frameD` except for `id` and `name`. -/
def frameE : Frame :=
  { id := "E2", name := "Twin Two", brand := "Z", style := "Oval",
    color := "Green", size := "Medium", price := "5", stockStatus := "in_stock",
    stockCount := none, imageUrl := "d.png", descr := none,
    suitableFaceShapes := none, isActive := some true }

/-- A perfect attribute match for `crit6` that is out of stock with zero count. -/
def frameF : Frame :=
  { id := "F", name := "Perfect But Gone", brand := "Ray-Ban", style := "Aviator",
    color := "Gold", size := "Medium", price := "99", stockStatus := "out_of_stock",
    stockCount := some 0, imageUrl := "f.png", descr := none,
    suitableFaceShapes := some ["oval"], isActive := some true }

/-- Criteria with a face shape, used against `frameG` (whose shapes do not
contain it) to separate the two variants. -/
def crit8 : FrameSearchCriteria :=
  { faceShape := "oval", recommendedSizes := [], recommendedColors := [],
    recommendedStyles := [] }

/-- An active frame not matching `crit8`'s face shape. -/
def frameG : Frame :=
  { id := "G", name := "Mismatch", brand := "Y", style := "Square",
    color := "Blue", size := "Small", price := "20", stockStatus := "low_stock",
    stockCount := some 3, imageUrl := "g.png", descr := none,
    suitableFaceShapes := some ["round"], isActive := some true }

/-- The candidate matches all four attribute factors, each in the sense the
score accumulation tests it. -/
def matchesAllFour (criteria : FrameSearchCriteria) (f : Frame) : Prop :=
  (criteria.faceShape ≠ "" ∧ criteria.faceShape ∈ f.suitableFaceShapes.getD [])
  ∧ f.size ∈ criteria.recommendedSizes
  ∧ f.color ∈ criteria.recommendedColors
  ∧ f.style ∈ criteria.recommendedStyles

/-- The candidate matches none of the four attribute factors. -/
def matchesNoFactor (criteria : FrameSearchCriteria) (g : Frame) : Prop :=
  ¬(criteria.faceShape ≠ "" ∧ criteria.faceShape ∈ g.suitableFaceShapes.getD [])
  ∧ g.size ∉ criteria.recommendedSizes
  ∧ g.color ∉ criteria.recommendedColors
  ∧ g.style ∉ criteria.recommendedStyles

instance (criteria : FrameSearchCriteria) (f : Frame) :
    Decidable (matchesAllFour criteria f) := by
  unfold matchesAllFour
  exact inferInstance

instance (criteria : FrameSearchCriteria) (g : Frame) :
    Decidable (matchesNoFactor criteria g) := by
  unfold matchesNoFactor
  exact inferInstance

/-! ### Evaluation helpers -/

theorem frameScore_crit6_frameA : frameScore crit6 frameA = 107.5 := by
  simp [frameScore, crit6, frameA, min_def]
  norm_num

theorem frameScore_crit6_frameB : frameScore crit6 frameB = 11.8 := by
  simp [frameScore, crit6, frameB, min_def]
  norm_num

theorem frameScore_crit6_frameC : frameScore crit6 frameC = 106.2 := by
  simp [frameScore, crit6, frameC, min_def]
  norm_num

theorem rankedFrames_crit6 :
    rankedFrames crit6 cat6 = [(frameA, 107.5), (frameC, 106.2), (frameB, 11.8)] := by
  have eA : frameA.isActive = some true := rfl
  have eB : frameB.isActive = some true := rfl
  have eC : frameC.isActive = some true := rfl
  simp only [rankedFrames, scoredFrames, eligibleFrames, cat6, List.filter, eA, eB, eC,
    decide_eq_true_eq, List.map, frameScore_crit6_frameA,
    frameScore_crit6_frameB, frameScore_crit6_frameC,
    List.insertionSort, List.orderedInsert, scoreGE]
  norm_num [scoreGE]

theorem searchFrames_crit6 : searchFrames crit6 cat6 2 = [frameA, frameC] := by
  simp [searchFrames, rankedFrames_crit6, jsSlice]

/-! ### Structural helpers -/

theorem jsSlice_sublist {α : Type} (l : List α) (e : Int) : jsSlice l e <+ l := by
  unfold jsSlice
  split <;> exact List.take_sublist _ _

theorem mem_searchFrames_eligible {criteria : FrameSearchCriteria} {catalog : List Frame}
    {limit : Int} {f : Frame} (h : f ∈ searchFrames criteria catalog limit) :
    f ∈ eligibleFrames catalog := by
  unfold searchFrames at h
  obtain ⟨p, hp, rfl⟩ := List.mem_map.mp h
  have hp2 : p ∈ rankedFrames criteria catalog := (jsSlice_sublist _ _).subset hp
  have hp3 : p ∈ scoredFrames criteria catalog := (List.mem_insertionSort _).mp hp2
  obtain ⟨g, hg, rfl⟩ := List.mem_map.mp hp3
  exact hg

theorem eligible_active {catalog : List Frame} {f : Frame}
    (h : f ∈ eligibleFrames catalog) : f ∈ catalog ∧ f.isActive = some true := by
  have h2 := List.mem_filter.mp h
  exact ⟨h2.1, of_decide_eq_true h2.2⟩

theorem rankedFrames_length (criteria : FrameSearchCriteria) (catalog : List Frame) :
    (rankedFrames criteria catalog).length = (eligibleFrames catalog).length := by
  simp [rankedFrames, scoredFrames, List.length_insertionSort]

/-! ### Claim theorems -/

/-- C2: an entry with `isActive = false` never appears in the output of
`searchFrames`, for every criteria, catalog and limit — inactivity is an
absolute pre-scoring exclusion. -/
theorem searchFrames_excludes_inactive (criteria : FrameSearchCriteria)
    (catalog : List Frame) (limit : Int) (f : Frame) (h : f.isActive = some false) :
    f ∉ searchFrames criteria catalog limit := by
  intro hmem
  have h2 := (eligible_active (mem_searchFrames_eligible hmem)).2
  rw [h] at h2
  simp at h2

/-- Witness for C2 at a concrete inactive frame whose attributes perfectly
match the criteria. -/
theorem searchFrames_excludes_inactive_witness :
    frameInactive.isActive = some false ∧
    frameInactive ∉ searchFrames crit6 [frameInactive] 5 :=
  ⟨rfl, searchFrames_excludes_inactive crit6 [frameInactive] 5 frameInactive rfl⟩

/-- C3: the output length is at most the (positive) limit and at most the
number of eligible candidates; an unspecified limit defaults to 5; a catalog
with no active entry (in particular an empty catalog) yields `[]`, and
`searchFrames` is a total function, so no error is raised. -/
theorem searchFrames_bounded (criteria : FrameSearchCriteria) (catalog : List Frame)
    (limit : Int) :
    (0 < limit →
      (searchFrames criteria catalog limit).length ≤ limit.toNat ∧
      (searchFrames criteria catalog limit).length ≤ (eligibleFrames catalog).length) ∧
    searchFrames criteria catalog = searchFrames criteria catalog 5 ∧
    ((∀ f ∈ catalog, f.isActive ≠ some true) → searchFrames criteria catalog limit = []) := by
  refine ⟨fun hpos => ⟨?_, ?_⟩, rfl, fun hall => ?_⟩
  · have hnn : ¬ limit < 0 := by omega
    simp only [searchFrames, jsSlice, hnn, if_false, List.length_map, List.length_take]
    omega
  · have h1 : (jsSlice (rankedFrames criteria catalog) limit).length
        ≤ (rankedFrames criteria catalog).length := (jsSlice_sublist _ _).length_le
    have h2 := rankedFrames_length criteria catalog
    simp only [searchFrames, List.length_map]
    omega
  · have he : eligibleFrames catalog = [] := by
      simp only [eligibleFrames, List.filter_eq_nil_iff, decide_eq_true_eq]
      exact hall
    simp [searchFrames, rankedFrames, scoredFrames, he, jsSlice, List.insertionSort]

/-- Witness for C3 at a concrete catalog whose single entry is inactive and a
concrete positive limit. -/
theorem searchFrames_bounded_witness :
    ((searchFrames crit6 [frameInactive] 3).length ≤ (3 : Int).toNat ∧
      (searchFrames crit6 [frameInactive] 3).length ≤ (eligibleFrames [frameInactive]).length) ∧
    searchFrames crit6 [frameInactive] 3 = [] :=
  ⟨(searchFrames_bounded crit6 [frameInactive] 3).1 (by decide),
    (searchFrames_bounded crit6 [frameInactive] 3).2.2 (by decide)⟩

/-- C1 counterexample: with `attributes.faceShape = ""` (accepted by the zod
schema) and a frame whose `suitableFaceShapes` contains `""`, the computed
score is 0 although the claimed sum of contributions awards the +30 face-shape
factor, because the source's JavaScript truthiness guard treats the empty
string as falsy. -/
theorem frameScore_ne_claimedScore :
    frameScore critEmpty frameEmptyShape = 0 ∧
    claimedScore critEmpty frameEmptyShape = 30 ∧
    frameScore critEmpty frameEmptyShape ≠ claimedScore critEmpty frameEmptyShape := by
  have h0 : frameScore critEmpty frameEmptyShape = 0 := by
    simp [frameScore, critEmpty, frameEmptyShape]
  have h30 : claimedScore critEmpty frameEmptyShape = 30 := by
    simp [claimedScore, critEmpty, frameEmptyShape]
  refine ⟨h0, h30, ?_⟩
  rw [h0, h30]
  norm_num

/-- C1 (amended): for every criteria and frame the computed match score equals
the claimed sum of contributions with the face-shape factor additionally
conditioned on a non-empty `attributes.faceShape`; consequently the score is
non-negative. -/
theorem frameScore_eq_amendedScore (criteria : FrameSearchCriteria) (frame : Frame) :
    frameScore criteria frame = amendedScore criteria frame ∧
    0 ≤ frameScore criteria frame := by
  constructor
  · have hstat : (if frame.stockStatus = "in_stock" then (10:ℚ)
        else if frame.stockStatus = "low_stock" then 5 else 0)
        = (if frame.stockStatus = "in_stock" then (10:ℚ) else 0)
          + (if frame.stockStatus = "low_stock" then (5:ℚ) else 0) := by
      by_cases h1 : frame.stockStatus = "in_stock" <;>
        by_cases h2 : frame.stockStatus = "low_stock" <;> simp [h1, h2]
    have hstk : (match frame.stockCount with
        | some c => if 0 < c then min ((c : ℚ) / 10) 5 else 0
        | none => (0:ℚ))
        = (if 0 < frame.stockCount.getD 0
            then min ((frame.stockCount.getD 0 : ℚ) / 10) 5 else 0) := by
      cases frame.stockCount <;> simp
    unfold frameScore amendedScore
    rw [hstat, hstk]
    ring
  · have b1 : (0:ℚ) ≤ if criteria.faceShape ≠ "" ∧
        criteria.faceShape ∈ frame.suitableFaceShapes.getD [] then 30 else 0 := by
      split <;> norm_num
    have b2 : (0:ℚ) ≤ if frame.size ∈ criteria.recommendedSizes then 25 else 0 := by
      split <;> norm_num
    have b3 : (0:ℚ) ≤ if frame.color ∈ criteria.recommendedColors then 20 else 0 := by
      split <;> norm_num
    have b4 : (0:ℚ) ≤ if frame.style ∈ criteria.recommendedStyles then 20 else 0 := by
      split <;> norm_num
    have b5 : (0:ℚ) ≤ if frame.stockStatus = "in_stock" then 10
        else if frame.stockStatus = "low_stock" then 5 else 0 := by
      split <;> [norm_num; split <;> norm_num]
    have b6 : (0:ℚ) ≤ match frame.stockCount with
        | some c => if 0 < c then min ((c : ℚ) / 10) 5 else 0
        | none => (0:ℚ) := by
      cases frame.stockCount with
      | none => norm_num
      | some c =>
        by_cases hp : 0 < c
        · have hc0 : (0:ℚ) ≤ (c : ℚ) := by exact_mod_cast hp.le
          simp only [hp, if_true]
          exact le_min (div_nonneg hc0 (by norm_num)) (by norm_num)
        · simp [hp]
    exact add_nonneg (add_nonneg (add_nonneg (add_nonneg (add_nonneg b1 b2) b3) b4) b5) b6

/-- C4 counterexample: `searchFrames` performs no limit validation and never
raises — at the non-positive limits 0 and -1 it returns ordinary values, and at
-1 it even returns a partial result (the top 2 of 3 ranked candidates, by the
negative-end semantics of `Array.prototype.slice`) instead of rejecting before
scoring. -/
theorem searchFrames_accepts_nonpositive_limit :
    searchFrames crit6 cat6 0 = [] ∧ searchFrames crit6 cat6 (-1) = [frameA, frameC] := by
  constructor
  · simp [searchFrames, jsSlice]
  · simp [searchFrames, rankedFrames_crit6, jsSlice]

/-- C4 (amended): `searchFrames` is total and never rejects a limit: limit 0
yields `[]`, a negative limit `-k` keeps all but the last `k` ranked candidates
(JavaScript `slice` semantics), and attribute values that match nothing are
absorbed as zero contributions, leaving only the stock part of the score. -/
theorem searchFrames_never_rejects (criteria : FrameSearchCriteria)
    (catalog : List Frame) (f : Frame) :
    searchFrames criteria catalog 0 = [] ∧
    (∀ limit : Int, limit < 0 →
      (searchFrames criteria catalog limit).length
        = (eligibleFrames catalog).length - (-limit).toNat) ∧
    (criteria.faceShape ∉ f.suitableFaceShapes.getD [] →
      f.size ∉ criteria.recommendedSizes →
      f.color ∉ criteria.recommendedColors →
      f.style ∉ criteria.recommendedStyles →
      frameScore criteria f = stockScore f) := by
  refine ⟨?_, fun limit hneg => ?_, fun h1 h2 h3 h4 => ?_⟩
  · simp [searchFrames, jsSlice]
  · have hlen := rankedFrames_length criteria catalog
    simp only [searchFrames, jsSlice, hneg, if_true, List.length_map, List.length_take]
    omega
  · simp [frameScore, stockScore, h1, h2, h3, h4]

/-- Witness for C4 (amended) at limit -1 over the concrete three-product
catalog and at the concrete non-matching frame B. -/
theorem searchFrames_never_rejects_witness :
    searchFrames crit6 cat6 0 = [] ∧
    (searchFrames crit6 cat6 (-1)).length
      = (eligibleFrames cat6).length - (-(-1 : Int)).toNat ∧
    frameScore crit6 frameB = stockScore frameB :=
  ⟨(searchFrames_never_rejects crit6 cat6 frameB).1,
    (searchFrames_never_rejects crit6 cat6 frameB).2.1 (-1) (by decide),
    (searchFrames_never_rejects crit6 cat6 frameB).2.2
      (by decide) (by decide) (by decide) (by decide)⟩

/-- C5: `searchFrames` is a pure function, so two invocations on identical
inputs are definitionally equal; and the ranking is stable: two active
candidates with equal match scores appearing in catalog order `f` before `g`
appear in that same relative order in the ranked sequence, so ingestion order
is the final, implicit tie-break. -/
theorem searchFrames_deterministic_stable (criteria : FrameSearchCriteria)
    (catalog : List Frame) (limit : Int) (f g : Frame)
    (hscore : frameScore criteria f = frameScore criteria g)
    (hf : f.isActive = some true) (hg : g.isActive = some true)
    (hsub : [f, g] <+ catalog) :
    searchFrames criteria catalog limit = searchFrames criteria catalog limit ∧
    [(f, frameScore criteria f), (g, frameScore criteria g)]
      <+ rankedFrames criteria catalog := by
  refine ⟨rfl, ?_⟩
  have h1 : [f, g] <+ eligibleFrames catalog := by
    have h := hsub.filter (fun x => decide (x.isActive = some true))
    simpa [List.filter, hf, hg, eligibleFrames] using h
  have h2 : [(f, frameScore criteria f), (g, frameScore criteria g)]
      <+ scoredFrames criteria catalog := by
    have h := h1.map (fun x => (x, frameScore criteria x))
    simpa [scoredFrames] using h
  unfold rankedFrames
  exact List.pair_sublist_insertionSort (by simp [scoreGE, hscore]) h2

/-- Witness for C5: two equal-score twins (differing only in id and name) in
catalog order keep that order in the ranked list. -/
theorem searchFrames_deterministic_stable_witness :
    searchFrames crit6 [frameD, frameE] 5 = searchFrames crit6 [frameD, frameE] 5 ∧
    [(frameD, frameScore crit6 frameD), (frameE, frameScore crit6 frameE)]
      <+ rankedFrames crit6 [frameD, frameE] :=
  searchFrames_deterministic_stable crit6 [frameD, frameE] 5 frameD frameE
    rfl rfl rfl (List.Sublist.refl _)

/-- C6: on the spec's concrete three-product scenario the computed scores are
A = 107.5, B = 11.8, C = 106.2, and with limit 2 the output is exactly
`[A, C]` (B truncated). -/
theorem searchFrames_concrete_scenario :
    frameScore crit6 frameA = 107.5 ∧ frameScore crit6 frameB = 11.8 ∧
    frameScore crit6 frameC = 106.2 ∧ searchFrames crit6 cat6 2 = [frameA, frameC] :=
  ⟨frameScore_crit6_frameA, frameScore_crit6_frameB, frameScore_crit6_frameC,
    searchFrames_crit6⟩

/-- C7: a candidate matching all four attribute factors but out of stock with
zero count scores exactly 95, a candidate matching no attribute factor scores
at most 15 even when in stock with arbitrarily high count, and in any ranked
sequence containing both the former occurs strictly earlier. -/
theorem attributeFit_dominates_stock (criteria : FrameSearchCriteria) (f g : Frame)
    (hf : matchesAllFour criteria f) (hfs : f.stockStatus = "out_of_stock")
    (hfc : f.stockCount = some 0)
    (hg : matchesNoFactor criteria g) (hgs : g.stockStatus = "in_stock") :
    frameScore criteria f = 95 ∧ frameScore criteria g ≤ 15 ∧
    ∀ (catalog : List Frame) (i j : Nat)
      (hi : i < (rankedFrames criteria catalog).length)
      (hj : j < (rankedFrames criteria catalog).length),
      (rankedFrames criteria catalog).get ⟨i, hi⟩ = (f, frameScore criteria f) →
      (rankedFrames criteria catalog).get ⟨j, hj⟩ = (g, frameScore criteria g) →
      i < j := by
  obtain ⟨hshape, hsize, hcolor, hstyle⟩ := hf
  obtain ⟨gshape, gsize, gcolor, gstyle⟩ := hg
  have hF : frameScore criteria f = 95 := by
    unfold frameScore
    rw [if_pos ⟨hshape.1, hshape.2⟩, if_pos hsize, if_pos hcolor, if_pos hstyle, hfs, hfc]
    rw [if_neg (by decide : ¬("out_of_stock" = "in_stock")),
      if_neg (by decide : ¬("out_of_stock" = "low_stock"))]
    show (30:ℚ) + 25 + 20 + 20 + 0 + (if (0:Int) < 0 then min ((0:ℚ) / 10) 5 else 0) = 95
    norm_num
  have hG : frameScore criteria g ≤ 15 := by
    unfold frameScore
    rw [if_neg gshape, if_neg gsize, if_neg gcolor, if_neg gstyle, hgs, if_pos rfl]
    cases hc : g.stockCount with
    | none => norm_num
    | some c =>
      by_cases hp : 0 < c
      · show (0:ℚ) + 0 + 0 + 0 + 10 + (if 0 < c then min ((c:ℚ) / 10) 5 else 0) ≤ 15
        rw [if_pos hp]
        have h5 := min_le_right ((c : ℚ) / 10) 5
        linarith
      · show (0:ℚ) + 0 + 0 + 0 + 10 + (if 0 < c then min ((c:ℚ) / 10) 5 else 0) ≤ 15
        rw [if_neg hp]
        norm_num
  refine ⟨hF, hG, fun catalog i j hi hj hgi hgj => ?_⟩
  have hsorted : (rankedFrames criteria catalog).Sorted scoreGE := by
    unfold rankedFrames
    exact List.sorted_insertionSort scoreGE _
  by_contra hij
  push_neg at hij
  rcases lt_or_eq_of_le hij with hlt | heq
  · have hrel := hsorted.rel_get_of_lt
      (show (⟨j, hj⟩ : Fin _) < ⟨i, hi⟩ from Fin.mk_lt_mk.mpr hlt)
    rw [hgi, hgj] at hrel
    have : frameScore criteria f ≤ frameScore criteria g := hrel
    rw [hF] at this
    linarith
  · subst heq
    have hfg : ((f, frameScore criteria f) : Frame × ℚ)
        = (g, frameScore criteria g) := hgi.symm.trans hgj
    have heq2 : frameScore criteria f = frameScore criteria g :=
      congrArg Prod.snd hfg
    rw [hF] at heq2
    linarith

/-- Witness for C7: the perfect-but-out-of-stock frame F against the
non-matching in-stock frame B. -/
theorem attributeFit_dominates_stock_witness :
    frameScore crit6 frameF = 95 ∧ frameScore crit6 frameB ≤ 15 :=
  ⟨(attributeFit_dominates_stock crit6 frameF frameB (by decide) rfl rfl
      (by decide) rfl).1,
    (attributeFit_dominates_stock crit6 frameF frameB (by decide) rfl rfl
      (by decide) rfl).2.1⟩

/-- C8 counterexample: the two historical `searchFrames` strategies are not
behaviorally equivalent — on a one-frame catalog whose active frame does not
carry the requested face shape, the query-push variant pushes the face-shape
filter and returns `[]`, while the in-memory scoring variant keeps every active
frame and returns the frame. -/
theorem variants_differ :
    searchFramesPush crit8 [frameG] 5 = [] ∧
    searchFrames crit8 [frameG] 5 = [frameG] ∧
    searchFramesPush crit8 [frameG] 5 ≠ searchFrames crit8 [frameG] 5 := by
  have h1 : searchFramesPush crit8 [frameG] 5 = [] := by
    simp [searchFramesPush, queryKeeps, crit8, frameG, List.insertionSort]
  have h2 : searchFrames crit8 [frameG] 5 = [frameG] := by
    simp [searchFrames, rankedFrames, scoredFrames, eligibleFrames, jsSlice,
      List.insertionSort, List.orderedInsert]
  refine ⟨h1, h2, ?_⟩
  rw [h1, h2]
  simp

/-- C8 (amended): the two strategies agree on the eligibility filter — neither
ever returns an inactive frame — but they are not equivalent realizations of
the scoring contract: the query-push variant drops active frames failing any
pushed predicate and orders by stock count rather than by match score. -/
theorem variants_never_return_inactive (criteria : FrameSearchCriteria)
    (catalog : List Frame) (lim : Nat) (lim2 : Int) (f : Frame)
    (h : f.isActive = some false) :
    f ∉ searchFramesPush criteria catalog lim ∧
    f ∉ searchFrames criteria catalog lim2 := by
  constructor
  · intro hmem
    unfold searchFramesPush at hmem
    have h2 := (List.mem_insertionSort _).mp (List.take_subset _ _ hmem)
    have h3 := List.mem_filter.mp h2
    have h4 : queryKeeps criteria f := of_decide_eq_true h3.2
    have h5 := h4.1
    rw [h] at h5
    simp at h5
  · intro hmem
    have h2 := (eligible_active (mem_searchFrames_eligible hmem)).2
    rw [h] at h2
    simp at h2

/-- Witness for C8 (amended) at the concrete inactive frame. -/
theorem variants_never_return_inactive_witness :
    frameInactive.isActive = some false ∧
    frameInactive ∉ searchFramesPush crit6 [frameInactive] 5 ∧
    frameInactive ∉ searchFrames crit6 [frameInactive] 5 :=
  ⟨rfl, variants_never_return_inactive crit6 [frameInactive] 5 5 frameInactive rfl⟩

/-- C9: the output of `searchFrames` consists of bare `Frame` values: it is the
ranked scored sequence with its second (score) component projected away, and
every returned element is, field for field, an entry of the input catalog. -/
theorem searchFrames_output_bare (criteria : FrameSearchCriteria)
    (catalog : List Frame) (limit : Int) :
    searchFrames criteria catalog limit
      = (jsSlice (rankedFrames criteria catalog) limit).map Prod.fst ∧
    ∀ f ∈ searchFrames criteria catalog limit, ∃ g ∈ catalog, f = g := by
  refine ⟨rfl, fun f hf => ?_⟩
  exact ⟨f, (eligible_active (mem_searchFrames_eligible hf)).1, rfl⟩

/-- Witness for C9: the top result of the concrete scenario is an entry of the
input catalog. -/
theorem searchFrames_output_bare_witness :
    ∃ g ∈ cat6, frameA = g :=
  (searchFrames_output_bare crit6 cat6 2).2 frameA (by simp [searchFrames_crit6])

/-- C10: for every criteria, catalog and limit the output of `searchFrames` is
a reordered subset (sub-permutation) of the eligible candidates: every output
element is an eligible catalog entry and no entry is used more than once. -/
theorem searchFrames_subperm_eligible (criteria : FrameSearchCriteria)
    (catalog : List Frame) (limit : Int) :
    searchFrames criteria catalog limit <+~ eligibleFrames catalog := by
  have h1 : jsSlice (rankedFrames criteria catalog) limit
      <+ rankedFrames criteria catalog := jsSlice_sublist _ _
  have h2 : searchFrames criteria catalog limit
      <+ (rankedFrames criteria catalog).map Prod.fst := h1.map Prod.fst
  have h3 : (rankedFrames criteria catalog).map Prod.fst
      ~ (scoredFrames criteria catalog).map Prod.fst :=
    (List.perm_insertionSort scoreGE _).map Prod.fst
  have h4 : (scoredFrames criteria catalog).map Prod.fst = eligibleFrames catalog := by
    simp only [scoredFrames, List.map_map]
    have hcomp : (Prod.fst ∘ fun f => (f, frameScore criteria f)) = @id Frame := rfl
    rw [hcomp, List.map_id]
  exact h2.subperm.trans (h4 ▸ h3.subperm)

end FaceFrame
